import Mathlib

/-!
Shallow embedding of `src/whylogs/core/statistics/constraints.py`
(the constraint representation and evaluation engine of whylogs):
value constraints, summary constraints, their named collections, merge
semantics and the wire-format mapping.

Modelling conventions:
* Python scalar values are the inductive `PyVal` (strings, numbers as
  rationals, booleans).  In Python `bool` is a subclass of `int` and an
  instance of `numbers.Real`; the embedding keeps booleans as a separate
  constructor and spells those subtype facts out in the `isinstance`
  predicates.
* A Python expression that may raise is embedded as `Except PyErr _`;
  a method that mutates `self` and may raise *after* mutating returns the
  mutated state next to an optional error.
* Optional arguments / attributes that may be absent are `Option _`;
  Python truthiness is the explicit `truthy` functions.
* Python `dict`s are association lists with unique keys kept in insertion
  order; iterating a dict yields its keys, which the embedding reproduces
  where the source iterates one.
* The external `datasketches` theta-sketch primitive (treated by the code
  as a supplied black box) is modelled exactly: a sketch is the list of
  items fed to it and `theta_a_not_b().compute(a,b).get_estimate()` is the
  exact number of distinct items of `a` not in `b`.  The estimate is a
  natural number, so Python's `round(·, 1)` is the identity on it.
* Regular-expression matching (Python `re`, also external) is an explicit
  `matcher : String → String → Bool` parameter of `update`.
-/

/-- The `Op` enumeration of `whylogs.proto` used by the constraint engine. -/
inductive Op
  | LT | LE | EQ | NE | GE | GT | MATCH | NOMATCH | BTWN
  | IN_SET | CONTAIN_SET | EQ_SET
deriving DecidableEq, Repr

/-- `Op.Name`, the protobuf enum-value name used in rendered constraint names. -/
def Op.Name : Op → String
  | .LT => "LT" | .LE => "LE" | .EQ => "EQ" | .NE => "NE" | .GE => "GE"
  | .GT => "GT" | .MATCH => "MATCH" | .NOMATCH => "NOMATCH" | .BTWN => "BTWN"
  | .IN_SET => "IN_SET" | .CONTAIN_SET => "CONTAIN_SET" | .EQ_SET => "EQ_SET"

/-- A Python scalar value as the engine sees it: text, a number
(ints and floats collapsed to `ℚ`), or a boolean. -/
inductive PyVal
  | str (s : String)
  | num (q : ℚ)
  | boolean (b : Bool)
deriving DecidableEq, Repr

namespace PyVal

/-- `isinstance(v, str)`. -/
def isStr : PyVal → Bool
  | .str _ => true
  | _ => false

/-- `isinstance(v, numbers.Real)`: numbers and booleans (bool ≤ int ≤ Real). -/
def isReal : PyVal → Bool
  | .num _ => true
  | .boolean _ => true
  | _ => false

/-- `isinstance(v, bool)`. -/
def isBool : PyVal → Bool
  | .boolean _ => true
  | _ => false

/-- `isinstance(v, (int, float))`: numbers, and booleans because
`bool` subclasses `int`. -/
def isIntFloat : PyVal → Bool
  | .num _ => true
  | .boolean _ => true
  | _ => false

/-- The numeric content of a value, `True`/`False` reading as `1`/`0`
(junk `0` on strings; only used after an `isinstance` guard). -/
def toRat : PyVal → ℚ
  | .num q => q
  | .boolean b => if b then 1 else 0
  | .str _ => 0

/-- Python truthiness of a scalar. -/
def truthy : PyVal → Bool
  | .str s => s ≠ ""
  | .num q => q ≠ 0
  | .boolean b => b

/-- `str(v)` as rendered inside an f-string. -/
def pyStr : PyVal → String
  | .str s => s
  | .num q => toString q
  | .boolean b => if b then "True" else "False"

/-- `repr(v)` as rendered inside `str` of a container. -/
def pyRepr : PyVal → String
  | .str s => "'" ++ s ++ "'"
  | v => v.pyStr

end PyVal

/-- Truthiness of an optional argument: Python `None` is falsy,
anything else by its own truth value. -/
def optTruthy : Option PyVal → Bool
  | none => false
  | some v => v.truthy

/-- Truthiness of an optional string argument (`""` is falsy). -/
def optStrTruthy : Option String → Bool
  | none => false
  | some s => s ≠ ""

/-- Truthiness of an optional collection argument (empty is falsy). -/
def optListTruthy : Option (List PyVal) → Bool
  | none => false
  | some l => !l.isEmpty

/-- The exceptions the embedded code can raise. -/
inductive PyErr
  | valueError (msg : String)
  | typeError (msg : String)
  | attributeError (msg : String)
  | keyError (msg : String)
  | assertionError (msg : String)
deriving DecidableEq, Repr

instance {ε α : Type} [DecidableEq ε] [DecidableEq α] :
    DecidableEq (Except ε α) := fun x y =>
  match x, y with
  | .ok a, .ok b =>
      if h : a = b then .isTrue (by rw [h]) else .isFalse (by simp [h])
  | .error e, .error f =>
      if h : e = f then .isTrue (by rw [h]) else .isFalse (by simp [h])
  | .ok _, .error _ => .isFalse (by simp)
  | .error _, .ok _ => .isFalse (by simp)

/-- Configuration errors in the spec's taxonomy: `ValueError` or
`TypeError` raised at construction. -/
def PyErr.isConfigError : PyErr → Bool
  | .valueError _ => true
  | .typeError _ => true
  | _ => false

/-- Python binary comparison `a OP b` for the six order/equality
operators, with Python 3 semantics: `==`/`!=` never raise and compare
numerics across `int`/`float`/`bool`; `<`,`<=`,`>`,`>=` work within
numerics (booleans counting as their integer value) and within strings
and raise `TypeError` across those families. -/
def pyCompare (op : Op) (a b : PyVal) : Except PyErr Bool :=
  match op with
  | .EQ => .ok (pyEqB a b)
  | .NE => .ok (!pyEqB a b)
  | .LT => pyOrd a b (fun x y => x < y) (fun x y => x < y)
  | .LE => pyOrd a b (fun x y => x ≤ y) (fun x y => x ≤ y)
  | .GT => pyOrd a b (fun x y => x > y) (fun x y => x > y)
  | .GE => pyOrd a b (fun x y => x ≥ y) (fun x y => x ≥ y)
  | _ => .error (.typeError "unsupported comparison")
where
  /-- Python `==` across the scalar types: numerics compare by value
  (`True == 1`), strings by content, cross-family is `False`. -/
  pyEqB (a b : PyVal) : Bool :=
    match a, b with
    | .str s, .str t => s = t
    | .str _, _ => false
    | _, .str _ => false
    | x, y => x.toRat = y.toRat
  /-- Python `<`-family: both numeric or both strings, else `TypeError`. -/
  pyOrd (a b : PyVal) (fq : ℚ → ℚ → Prop) [DecidableRel fq]
      (fs : String → String → Prop) [DecidableRel fs] : Except PyErr Bool :=
    if a.isIntFloat && b.isIntFloat then .ok (decide (fq a.toRat b.toRat))
    else match a, b with
      | .str s, .str t => .ok (decide (fs s t))
      | _, _ => .error (.typeError "not supported between instances")

/-- The operators present as keys of the `_value_funcs` table. -/
def valueFuncOps : List Op := [.LT, .LE, .EQ, .NE, .GE, .GT, .MATCH, .NOMATCH]

/-- The non-set operators present as keys of `_summary_funcs1` /
`_summary_funcs2` (field-vs-literal and field-vs-field tables). -/
def summaryFuncOps : List Op := [.LT, .LE, .EQ, .NE, .GE, .GT, .BTWN]

/-- The set-relation operators. -/
def setOps : List Op := [.IN_SET, .CONTAIN_SET, .EQ_SET]

/-- A theta sketch, modelled exactly as the multiset of items fed to it. -/
abbrev ThetaSketch := List PyVal

/-- `theta_a_not_b().compute(a, b).get_estimate()` in the exact model:
the number of distinct items of `a` that are not in `b`.  The estimate
is a natural number, so `round(·, 1) == 0.0` is just `= 0`. -/
def aNotBEstimate (a b : ThetaSketch) : ℕ :=
  ((List.filter (fun x => !List.contains b x) a).dedup).length

/-- The `_summary_funcs1` entries for the set operators, applied to a
reference sketch and a column sketch (`IN_SET`: column ⊆ reference;
`CONTAIN_SET`: reference ⊆ column; `EQ_SET`: both). -/
def setOpHolds (op : Op) (referenceSketch columnSketch : ThetaSketch) : Bool :=
  match op with
  | .IN_SET => aNotBEstimate columnSketch referenceSketch = 0
  | .CONTAIN_SET => aNotBEstimate referenceSketch columnSketch = 0
  | .EQ_SET =>
      aNotBEstimate columnSketch referenceSketch
          = aNotBEstimate referenceSketch columnSketch
        && aNotBEstimate columnSketch referenceSketch = 0
  | _ => false

/-! ## ValueConstraint -/

/-- The attribute state of a `ValueConstraint` instance.  `value` /
`regex_pattern` are `some` exactly when the Python instance has the
attribute. -/
structure ValueConstraint where
  _name : Option String
  _verbose : Bool
  op : Op
  total : ℕ
  failures : ℕ
  value : Option PyVal
  regex_pattern : Option String
deriving DecidableEq, Repr

namespace ValueConstraint

/-- `ValueConstraint.__init__`: exactly one of `value` / `regex_pattern`
must be given, else `ValueError`; the chosen branch binds
`_value_funcs[op](...)`, which raises `KeyError` when `op` is not a key
of the value-function table. -/
def init (op : Op) (value : Option PyVal) (regex_pattern : Option String)
    (name : Option String) (verbose : Bool) : Except PyErr ValueConstraint :=
  match value, regex_pattern with
  | some v, none =>
      if valueFuncOps.contains op then
        .ok { _name := name, _verbose := verbose, op := op, total := 0,
              failures := 0, value := some v, regex_pattern := none }
      else .error (.keyError (Op.Name op))
  | none, some p =>
      if valueFuncOps.contains op then
        .ok { _name := name, _verbose := verbose, op := op, total := 0,
              failures := 0, value := none, regex_pattern := some p }
      else .error (.keyError (Op.Name op))
  | _, _ =>
      .error (.valueError
        "Value constraint must specify a numeric value or regex pattern, but not both")

/-- The `name` property: when `getattr(self, "value", None)` is truthy the
name renders from the value, otherwise from `self.regex_pattern` — an
`AttributeError` when that attribute is absent (literal constraints whose
value is falsy and that carry no explicit name). -/
def nameProp (c : ValueConstraint) : Except PyErr String :=
  if optTruthy c.value then
    .ok (c._name.getD
      ("value " ++ c.op.Name ++ " " ++ (c.value.getD (.num 0)).pyStr))
  else
    match c._name with
    | some n => .ok n
    | none =>
        match c.regex_pattern with
        | some p => .ok ("value " ++ c.op.Name ++ " " ++ p)
        | none => .error (.attributeError "regex_pattern")

/-- `self.func(v)`: the closure bound at construction.  A literal-valued
constraint with a `MATCH`/`NOMATCH` operator bound `literal.match`, an
`AttributeError` when called; a regex constraint bound
`compiled_pattern.match`, which raises `TypeError` on non-text input and
otherwise consults the external matcher; any other combination compares
with `pyCompare` (incoming value on the left). -/
def evalFunc (matcher : String → String → Bool) (c : ValueConstraint)
    (v : PyVal) : Except PyErr Bool :=
  match c.value, c.regex_pattern with
  | some x, _ =>
      match c.op with
      | .MATCH => .error (.attributeError "match")
      | .NOMATCH => .error (.attributeError "match")
      | op => pyCompare op v x
  | none, some p =>
      match c.op with
      | .MATCH =>
          match v with
          | .str s => .ok (matcher p s)
          | _ => .error (.typeError "expected string or bytes-like object")
      | .NOMATCH =>
          match v with
          | .str s => .ok (!matcher p s)
          | _ => .error (.typeError "expected string or bytes-like object")
      | _ => .error (.typeError "not supported between instances")
  | none, none => .error (.attributeError "func")

/-- `ValueConstraint.update`: increments `total`; a non-text value under
`MATCH`/`NOMATCH` counts as a failure without evaluating the predicate;
otherwise a false predicate increments `failures`.  The mutated state is
returned even when the predicate evaluation raises. -/
def update (matcher : String → String → Bool) (c : ValueConstraint)
    (v : PyVal) : ValueConstraint × Option PyErr :=
  let c1 := { c with total := c.total + 1 }
  if (c1.op = .MATCH || c1.op = .NOMATCH) && !v.isStr then
    ({ c1 with failures := c1.failures + 1 }, none)
  else
    match c1.evalFunc matcher v with
    | .error e => (c1, some e)
    | .ok true => (c1, none)
    | .ok false => ({ c1 with failures := c1.failures + 1 }, none)

/-- `ValueConstraint.merge`: falsy `other` returns `self`; then asserts
equal names, ops and values (`self.value` raising `AttributeError` on a
regex constraint), builds a fresh constraint from `self`'s fields and
sums the counters. -/
def merge (self : ValueConstraint) (other : Option ValueConstraint) :
    Except PyErr ValueConstraint :=
  match other with
  | none => .ok self
  | some o => do
      let n1 ← self.nameProp
      let n2 ← o.nameProp
      if n1 ≠ n2 then
        throw (.assertionError "Cannot merge constraints with different names")
      else if self.op ≠ o.op then
        throw (.assertionError "Cannot merge constraints with different ops")
      else do
        let v1 ← match self.value with
          | some v => pure v
          | none => throw (.attributeError "value")
        let v2 ← match o.value with
          | some v => pure v
          | none => throw (.attributeError "value")
        if !pyCompare.pyEqB v1 v2 then
          throw (.assertionError
            "Cannot merge value constraints with different values")
        else do
          let m ← init self.op (some v1) none (some n1) self._verbose
          pure { m with total := self.total + o.total,
                        failures := self.failures + o.failures }

end ValueConstraint

/-- The wire message for a value constraint: `op`, `name`, `verbose` and
the `value` / `regex_pattern` fields (presence modelled by `Option`; a
proto3 read of an unset `value` yields the scalar default `0.0`). -/
structure ValueConstraintMsg where
  name : String
  op : Op
  value : Option PyVal
  regex_pattern : Option String
  verbose : Bool
deriving DecidableEq, Repr

/-- `ValueConstraint.to_protobuf`: `hasattr(self, "value")` selects the
literal rendering, otherwise the regex rendering. -/
def ValueConstraint.to_protobuf (c : ValueConstraint) :
    Except PyErr ValueConstraintMsg := do
  let n ← c.nameProp
  match c.value with
  | some v =>
      pure { name := n, op := c.op, value := some v, regex_pattern := none,
             verbose := c._verbose }
  | none =>
      match c.regex_pattern with
      | some p =>
          pure { name := n, op := c.op, value := none, regex_pattern := some p,
                 verbose := c._verbose }
      | none => throw (.attributeError "regex_pattern")

/-- `ValueConstraint.from_protobuf`: always reads `msg.value` (the proto3
scalar default `0.0` when the field is unset) and never consults
`msg.regex_pattern`, so every deserialized constraint is literal-valued. -/
def ValueConstraint.from_protobuf (m : ValueConstraintMsg) :
    Except PyErr ValueConstraint :=
  ValueConstraint.init m.op (some (m.value.getD (.num 0))) none (some m.name)
    m.verbose

/-! ## SummaryConstraint -/

/-- Python `==` on two optional scalars (`None == None` is `True`,
`None` never equals a value, values compare Python-style). -/
def pyEqOpt : Option PyVal → Option PyVal → Bool
  | none, none => true
  | some a, some b => pyCompare.pyEqB a b
  | _, _ => false

/-- Set equality of two reference sets (Python `==` on `set`s:
mutual membership, order-independent). -/
def sameSet (a b : List PyVal) : Bool :=
  a.all (fun x => b.contains x) && b.all (fun x => a.contains x)

/-- `SummaryConstraint.get_string_and_numbers_sets` as a function of the
stored reference set: one pass adding `isinstance(item, str)` members to
the string set and `isinstance(item, numbers.Real) and not
isinstance(item, bool)` members to the numbers set. -/
def get_string_and_numbers_sets (reference_set : List PyVal) :
    List PyVal × List PyVal :=
  (reference_set.filter PyVal.isStr,
   reference_set.filter (fun item => item.isReal && !item.isBool))

/-- The attribute state of a `SummaryConstraint` instance.  The
reference-set attributes only exist on set-relation constraints:
`reference_set = none` stands for the absent attribute (the derived
set/sketch fields are `[]` there and never read). -/
structure SummaryConstraint where
  _verbose : Bool
  _name : Option String
  op : Op
  first_field : String
  second_field : Option String
  third_field : Option String
  total : ℕ
  failures : ℕ
  value : Option PyVal
  upper_value : Option PyVal
  reference_set : Option (List PyVal)
  ref_string_set : List PyVal
  ref_numbers_set : List PyVal
  reference_theta_sketch : ThetaSketch
  string_theta_sketch : ThetaSketch
  numbers_theta_sketch : ThetaSketch
deriving DecidableEq, Repr

namespace SummaryConstraint

/-- `SummaryConstraint.__init__`.  Set operators require every other
operand falsy and a truthy reference set (one `any([...])` check), then
cast to a set and derive the string/number subsets and the three
sketches.  `BTWN` requires either two literal numeric bounds with the
lower strictly below the upper, or two bound fields.  Any other operator
takes exactly one of a literal or a second field and must be a key of
the summary function tables (else `KeyError`). -/
def init (first_field : String) (op : Op) (value upper_value : Option PyVal)
    (second_field third_field : Option String)
    (reference_set : Option (List PyVal)) (name : Option String)
    (verbose : Bool) : Except PyErr SummaryConstraint :=
  let base : SummaryConstraint :=
    { _verbose := verbose, _name := name, op := op, first_field := first_field,
      second_field := second_field, third_field := third_field,
      total := 0, failures := 0, value := value, upper_value := upper_value,
      reference_set := none, ref_string_set := [], ref_numbers_set := [],
      reference_theta_sketch := [], string_theta_sketch := [],
      numbers_theta_sketch := [] }
  if setOps.contains op then
    if optTruthy value || optTruthy upper_value || optStrTruthy second_field
        || optStrTruthy third_field || !optListTruthy reference_set then
      .error (.valueError
        "When using set operations only set should be provided and not values or field names!")
    else
      let rs := (reference_set.getD []).dedup
      .ok { base with
        reference_set := some rs,
        ref_string_set := (get_string_and_numbers_sets rs).1,
        ref_numbers_set := (get_string_and_numbers_sets rs).2,
        reference_theta_sketch := rs,
        string_theta_sketch := (get_string_and_numbers_sets rs).1,
        numbers_theta_sketch := (get_string_and_numbers_sets rs).2 }
  else if op = .BTWN then
    if value.isSome && upper_value.isSome && second_field.isNone
        && third_field.isNone then
      if !((value.getD (.num 0)).isIntFloat
            && (upper_value.getD (.num 0)).isIntFloat) then
        .error (.typeError
          "When creating Summary constraint with BETWEEN operation, upper and lower value must be of type (int, float)")
      else if (value.getD (.num 0)).toRat ≥ (upper_value.getD (.num 0)).toRat then
        .error (.valueError
          "Summary constraint with BETWEEN operation must specify lower value to be less than upper value")
      else .ok base
    else if second_field.isSome && third_field.isSome && value.isNone
        && upper_value.isNone then
      .ok base
    else
      .error (.valueError
        "Summary constraint with BETWEEN operation must specify lower and upper value OR lower and third field name, but not both")
  else
    if upper_value.isSome || third_field.isSome then
      .error (.valueError
        "Summary constraint with other than BETWEEN operation must NOT specify upper value NOR third field name")
    else if value.isSome && second_field.isNone then
      if summaryFuncOps.contains op then .ok base
      else .error (.keyError (Op.Name op))
    else if second_field.isSome && value.isNone then
      if summaryFuncOps.contains op then .ok base
      else .error (.keyError (Op.Name op))
    else
      .error (.valueError
        "Summary constraint must specify a second value or field name, but not both")

/-- `str(set)` rendering of a reference set, elements by `repr`. -/
def setStr (l : List PyVal) : String :=
  "\x7b" ++ String.intercalate ", " (l.map PyVal.pyRepr) ++ "\x7d"

/-- The `name` property: set constraints render (a bounded preview of)
the reference set, `BTWN` renders the lower and upper targets, anything
else renders `value/second_field` (`None` rendering as the text
`None`). -/
def nameProp (c : SummaryConstraint) : Except PyErr String :=
  if setOps.contains c.op then
    match c.reference_set with
    | none => .error (.attributeError "reference_set")
    | some rs =>
        let refStr :=
          if rs.length > 20 then
            (setStr (rs.take 20)).dropRight 1 ++ ", ...\x7d"
          else setStr rs
        .ok (c._name.getD
          ("summary " ++ c.first_field ++ " " ++ c.op.Name ++ " " ++ refStr))
  else if c.op = .BTWN then
    let lower := match c.value with
      | some v => v.pyStr
      | none => c.second_field.getD "None"
    let upper := match c.upper_value with
      | some v => v.pyStr
      | none => c.third_field.getD "None"
    .ok (c._name.getD
      ("summary " ++ c.first_field ++ " " ++ c.op.Name ++ " " ++ lower
        ++ " and " ++ upper))
  else
    let vStr := match c.value with
      | some v => v.pyStr
      | none => "None"
    let fStr := c.second_field.getD "None"
    .ok (c._name.getD
      ("summary " ++ c.first_field ++ " " ++ c.op.Name ++ " " ++ vStr
        ++ "/" ++ fStr))

end SummaryConstraint

/-- The aggregate summary object: named fields read with `getattr`
(`AttributeError` when the field is absent). -/
structure NumberSummary where
  fields : List (String × PyVal)
deriving DecidableEq, Repr

/-- `getattr(summary, field)`. -/
def NumberSummary.getattr (s : NumberSummary) (f : String) : Except PyErr PyVal :=
  match s.fields.find? (fun p => p.1 = f) with
  | some p => .ok p.2
  | none => .error (.attributeError f)

/-- The `update_dict` bundle passed to `SummaryConstraint.update`:
`number_summary`, `string_theta`, `number_theta`. -/
structure UpdateDict where
  number_summary : NumberSummary
  string_theta : ThetaSketch
  number_theta : ThetaSketch
deriving Repr

namespace SummaryConstraint

/-- `self.func(summ)` for the non-set constraints: the closure bound at
construction, chained comparisons evaluated left to right with Python's
short-circuiting. -/
def evalFunc (c : SummaryConstraint) (s : NumberSummary) : Except PyErr Bool :=
  if c.op = .BTWN then
    match c.second_field, c.third_field with
    | some f2, some f3 => do
        let a ← s.getattr f2
        let b ← s.getattr c.first_field
        let r1 ← pyCompare .LE a b
        if r1 then do
          let u ← s.getattr f3
          pyCompare .LE b u
        else pure false
    | _, _ =>
        match c.value, c.upper_value with
        | some v1, some v2 => do
            let b ← s.getattr c.first_field
            let r1 ← pyCompare .LE v1 b
            if r1 then pyCompare .LE b v2 else pure false
        | _, _ => .error (.attributeError "func")
  else
    match c.second_field with
    | some f2 => do
        let a ← s.getattr c.first_field
        let b ← s.getattr f2
        pyCompare c.op a b
    | none =>
        match c.value with
        | some v => do
            let a ← s.getattr c.first_field
            pyCompare c.op a v
        | none => .error (.attributeError "func")

/-- `SummaryConstraint.update`: increments `total`; set operators test
the stored string / numbers sketches against the bundle's column
sketches (`all([...])` of the two dimensions), any other operator
evaluates the bound predicate on the summary object.  A false result
increments `failures`; the mutated state is returned even when the
evaluation raises. -/
def update (c : SummaryConstraint) (d : UpdateDict) :
    SummaryConstraint × Option PyErr :=
  let c1 := { c with total := c.total + 1 }
  if setOps.contains c1.op then
    if !(setOpHolds c1.op c1.string_theta_sketch d.string_theta
          && setOpHolds c1.op c1.numbers_theta_sketch d.number_theta) then
      ({ c1 with failures := c1.failures + 1 }, none)
    else (c1, none)
  else
    match c1.evalFunc d.number_summary with
    | .error e => (c1, some e)
    | .ok true => (c1, none)
    | .ok false => ({ c1 with failures := c1.failures + 1 }, none)

/-- `SummaryConstraint.merge`: falsy `other` returns `self`; asserts
equal names, ops, values, first and second fields, then per shape equal
reference sets (set operators) or equal upper values / third fields
(`BTWN`); rebuilds the constraint from `self`'s fields and sums the
counters. -/
def merge (self : SummaryConstraint) (other : Option SummaryConstraint) :
    Except PyErr SummaryConstraint :=
  match other with
  | none => .ok self
  | some o => do
      let n1 ← self.nameProp
      let n2 ← o.nameProp
      if n1 ≠ n2 then
        throw (.assertionError "Cannot merge constraints with different names")
      else if self.op ≠ o.op then
        throw (.assertionError "Cannot merge constraints with different ops")
      else if !pyEqOpt self.value o.value then
        throw (.assertionError "Cannot merge constraints with different values")
      else if self.first_field ≠ o.first_field then
        throw (.assertionError
          "Cannot merge constraints with different first_field")
      else if self.second_field ≠ o.second_field then
        throw (.assertionError
          "Cannot merge constraints with different second_field")
      else do
        let m ←
          if setOps.contains self.op then do
            let r1 ← match self.reference_set with
              | some r => pure r
              | none => throw (.attributeError "reference_set")
            let r2 ← match o.reference_set with
              | some r => pure r
              | none => throw (.attributeError "reference_set")
            if !sameSet r1 r2 then
              throw (.assertionError "reference sets differ")
            else
              init self.first_field self.op none none none none (some r1)
                (some n1) self._verbose
          else if self.op = .BTWN then do
            if !pyEqOpt self.upper_value o.upper_value then
              throw (.assertionError
                "Cannot merge constraints with different upper values")
            else if self.third_field ≠ o.third_field then
              throw (.assertionError
                "Cannot merge constraints with different third_field")
            else
              init self.first_field self.op self.value self.upper_value
                self.second_field self.third_field none (some n1) self._verbose
          else
            init self.first_field self.op self.value none self.second_field
              none none (some n1) self._verbose
        pure { m with total := self.total + o.total,
                      failures := self.failures + o.failures }

end SummaryConstraint

/-! ## SummaryConstraint wire format -/

/-- The `between` sub-message: exactly one of the literal pair or the
field pair is meant to be set (presence modelled by `Option`). -/
structure SummaryBetweenConstraintMsg where
  lower_value : Option PyVal
  upper_value : Option PyVal
  second_field : Option String
  third_field : Option String
deriving DecidableEq, Repr

/-- The wire message for a summary constraint: `name`, `first_field`,
`op`, `verbose`, and the one-of operand fields `value` / `second_field`
/ `between` / `reference_set` with `HasField` presence. -/
structure SummaryConstraintMsg where
  name : String
  first_field : String
  op : Op
  value : Option PyVal
  second_field : Option String
  between : Option SummaryBetweenConstraintMsg
  reference_set : Option (List PyVal)
  verbose : Bool
deriving DecidableEq, Repr

/-- `SummaryConstraint.to_protobuf`: set operators write the reference
set; `BTWN` writes a `between` sub-message (literal bounds when both
bound fields are `None`, else the bound fields); otherwise the literal
`value` when `second_field` is `None`, else `second_field`.  Message
constructors skip `None` keyword values, leaving the field unset. -/
def SummaryConstraint.to_protobuf (c : SummaryConstraint) :
    Except PyErr SummaryConstraintMsg := do
  let n ← c.nameProp
  if setOps.contains c.op then
    match c.reference_set with
    | none => throw (.attributeError "reference_set")
    | some rs =>
        pure { name := n, first_field := c.first_field, op := c.op,
               value := none, second_field := none, between := none,
               reference_set := some rs, verbose := c._verbose }
  else if c.op = .BTWN then
    if c.second_field.isNone && c.third_field.isNone then
      pure { name := n, first_field := c.first_field, op := c.op,
             value := none, second_field := none,
             between := some { lower_value := c.value,
                               upper_value := c.upper_value,
                               second_field := none, third_field := none },
             reference_set := none, verbose := c._verbose }
    else
      pure { name := n, first_field := c.first_field, op := c.op,
             value := none, second_field := none,
             between := some { lower_value := none, upper_value := none,
                               second_field := c.second_field,
                               third_field := c.third_field },
             reference_set := none, verbose := c._verbose }
  else if c.second_field.isNone then
    pure { name := n, first_field := c.first_field, op := c.op,
           value := c.value, second_field := none, between := none,
           reference_set := none, verbose := c._verbose }
  else
    pure { name := n, first_field := c.first_field, op := c.op,
           value := none, second_field := c.second_field, between := none,
           reference_set := none, verbose := c._verbose }

/-- `SummaryConstraint.from_protobuf`: dispatches on which single one-of
field is present.  A `between` sub-message whose fields mix the literal
and field pairs matches no inner branch and the function falls off the
end, returning `None` (`.ok none`); no present one-of field (or several)
raises `ValueError`. -/
def SummaryConstraint.from_protobuf (m : SummaryConstraintMsg) :
    Except PyErr (Option SummaryConstraint) :=
  if m.reference_set.isSome && m.value.isNone && m.second_field.isNone
      && m.between.isNone then
    (SummaryConstraint.init m.first_field m.op none none none none
      (some ((m.reference_set.getD []).dedup)) (some m.name) m.verbose).map some
  else if m.value.isSome && m.second_field.isNone && m.between.isNone
      && m.reference_set.isNone then
    (SummaryConstraint.init m.first_field m.op m.value none none none none
      (some m.name) m.verbose).map some
  else if m.second_field.isSome && m.value.isNone && m.between.isNone
      && m.reference_set.isNone then
    (SummaryConstraint.init m.first_field m.op none none m.second_field none
      none (some m.name) m.verbose).map some
  else if m.between.isSome && m.value.isNone && m.second_field.isNone
      && m.reference_set.isNone then
    let b := m.between.getD
      { lower_value := none, upper_value := none, second_field := none,
        third_field := none }
    if b.lower_value.isSome && b.upper_value.isSome && b.second_field.isNone
        && b.third_field.isNone then
      (SummaryConstraint.init m.first_field m.op b.lower_value b.upper_value
        none none none (some m.name) m.verbose).map some
    else if b.second_field.isSome && b.third_field.isSome
        && b.lower_value.isNone && b.upper_value.isNone then
      (SummaryConstraint.init m.first_field m.op none none b.second_field
        b.third_field none (some m.name) m.verbose).map some
    else
      .ok none
  else
    .error (.valueError
      "SummaryConstraintMsg must specify a value OR second field name OR SummaryBetweenConstraintMsg OR reference set, but only one of them")

/-! ## Collections -/

/-- `ValueConstraints`: the `constraints` dict, an insertion-ordered
association list with unique keys. -/
structure ValueConstraints where
  constraints : List (String × ValueConstraint)
deriving DecidableEq, Repr

/-- `SummaryConstraints`: the `constraints` dict. -/
structure SummaryConstraints where
  constraints : List (String × SummaryConstraint)
deriving DecidableEq, Repr

/-- `ValueConstraints.__getitem__`: guards on `self.contraints` — a
misspelling of the `constraints` attribute, which no instance has — so
the attribute lookup raises `AttributeError` before anything else runs. -/
def ValueConstraints.getitem (c : ValueConstraints) (name : String) :
    Except PyErr (Option ValueConstraint) :=
  .error (.attributeError
    "'ValueConstraints' object has no attribute 'contraints'")

/-- `SummaryConstraints.__getitem__`: the same misspelled
`self.contraints` guard, so the lookup always raises `AttributeError`. -/
def SummaryConstraints.getitem (c : SummaryConstraints) (name : String) :
    Except PyErr (Option SummaryConstraint) :=
  .error (.attributeError
    "'SummaryConstraints' object has no attribute 'contraints'")

/-- `ValueConstraints.merge`: falsy `other` (or one with an empty dict)
returns `self`; otherwise it copies `other`'s dict and runs
`for name, constraint in self.constraints:` — iterating the *dict*, which
yields its key strings, each then unpacked as a `(name, constraint)`
pair: a two-character key unpacks into two characters and
`constraint.merge` raises `AttributeError` on the character, any other
key length raises the unpacking `ValueError`.  Only an empty `self`
reaches the end, returning `other`'s constraints unchanged. -/
def ValueConstraints.merge (self : ValueConstraints)
    (other : Option ValueConstraints) : Except PyErr ValueConstraints :=
  match other with
  | none => .ok self
  | some o =>
      if o.constraints.isEmpty then .ok self
      else
        match self.constraints with
        | [] => .ok ⟨o.constraints⟩
        | (k, _) :: _ =>
            if k.length = 2 then
              .error (.attributeError "'str' object has no attribute 'merge'")
            else
              .error (.valueError "values to unpack")

/-- `SummaryConstraints.merge`: identical structure to
`ValueConstraints.merge`, including the dict-iteration unpacking. -/
def SummaryConstraints.merge (self : SummaryConstraints)
    (other : Option SummaryConstraints) : Except PyErr SummaryConstraints :=
  match other with
  | none => .ok self
  | some o =>
      if o.constraints.isEmpty then .ok self
      else
        match self.constraints with
        | [] => .ok ⟨o.constraints⟩
        | (k, _) :: _ =>
            if k.length = 2 then
              .error (.attributeError "'str' object has no attribute 'merge'")
            else
              .error (.valueError "values to unpack")

/-! ## Concrete instances used by witnesses and counterexamples -/

/-- A regex value constraint (`MATCH` on pattern `"abc"`), fresh. -/
def vcMatchAbc : ValueConstraint :=
  { _name := none, _verbose := false, op := .MATCH, total := 0, failures := 0,
    value := none, regex_pattern := some "abc" }

/-- A regex value constraint with one observed value, as produced by one
`update` call on `vcMatchAbc` with a non-text value. -/
def vcMatchAbc1 : ValueConstraint :=
  { vcMatchAbc with total := 1, failures := 1 }

/-- A literal value constraint `value EQ 3` with counters `(1, 1)`. -/
def vcEq3a : ValueConstraint :=
  { _name := some "eq3", _verbose := false, op := .EQ, total := 1,
    failures := 1, value := some (.num 3), regex_pattern := none }

/-- The same identity as `vcEq3a` with counters `(2, 0)`. -/
def vcEq3b : ValueConstraint := { vcEq3a with total := 2, failures := 0 }

/-- The same identity as `vcEq3a` with counters `(5, 4)`. -/
def vcEq3c : ValueConstraint := { vcEq3a with total := 5, failures := 4 }

/-- A summary constraint `min GE 0` (literal shape), fresh. -/
def scMinGE0 : SummaryConstraint :=
  { _verbose := false, _name := none, op := .GE, first_field := "min",
    second_field := none, third_field := none, total := 0, failures := 0,
    value := some (.num 0), upper_value := none, reference_set := none,
    ref_string_set := [], ref_numbers_set := [], reference_theta_sketch := [],
    string_theta_sketch := [], numbers_theta_sketch := [] }

/-- `scMinGE0` with counters `(3, 1)`. -/
def scMinGE0a : SummaryConstraint := { scMinGE0 with total := 3, failures := 1 }

/-- `scMinGE0` with counters `(4, 2)`. -/
def scMinGE0b : SummaryConstraint := { scMinGE0 with total := 4, failures := 2 }

/-- `scMinGE0` with counters `(10, 0)`. -/
def scMinGE0c : SummaryConstraint :=
  { scMinGE0 with total := 10, failures := 0 }

/-- The set constraint built by
`SummaryConstraint("distinct_column_values", IN_SET, reference_set={"a", 2, True})`:
the string subset is `{"a"}` and the numbers subset `{2}` (the boolean is
excluded from both). -/
def scInSetEx : SummaryConstraint :=
  { _verbose := false, _name := none, op := .IN_SET,
    first_field := "distinct_column_values", second_field := none,
    third_field := none, total := 0, failures := 0, value := none,
    upper_value := none,
    reference_set := some [.str "a", .num 2, .boolean true],
    ref_string_set := [.str "a"], ref_numbers_set := [.num 2],
    reference_theta_sketch := [.str "a", .num 2, .boolean true],
    string_theta_sketch := [.str "a"], numbers_theta_sketch := [.num 2] }

/-- A singleton value-constraint collection keyed `"alpha"`. -/
def vcsAlpha : ValueConstraints := ⟨[("alpha", vcEq3a)]⟩

/-- A singleton value-constraint collection keyed `"beta"` — a different
member-name set than `vcsAlpha`. -/
def vcsBeta : ValueConstraints := ⟨[("beta", vcEq3b)]⟩

/-- A singleton summary-constraint collection keyed `"gamma"`. -/
def scsGamma : SummaryConstraints := ⟨[("gamma", scMinGE0a)]⟩

/-- A singleton summary-constraint collection keyed `"delta"`. -/
def scsDelta : SummaryConstraints := ⟨[("delta", scMinGE0b)]⟩

/-- The reference-set attributes a non-set constraint does not have. -/
def SummaryConstraint.noRefAttrs (c : SummaryConstraint) : Prop :=
  c.reference_set = none ∧ c.ref_string_set = [] ∧ c.ref_numbers_set = []
    ∧ c.reference_theta_sketch = [] ∧ c.string_theta_sketch = []
    ∧ c.numbers_theta_sketch = []

/-- The post-construction invariant of a `SummaryConstraint`: one of the
five operand shapes accepted by `__init__`, with the derived reference
subsets and sketches as construction leaves them.  Every constraint
returned by `SummaryConstraint.init` satisfies it with `value` /
`upper_value` given as `None` where unused. -/
def SummaryConstraint.shapeWF (c : SummaryConstraint) : Prop :=
  (setOps.contains c.op = true ∧ c.value = none ∧ c.upper_value = none
    ∧ c.second_field = none ∧ c.third_field = none
    ∧ ∃ l, c.reference_set = some l ∧ l ≠ [] ∧ l.Nodup
      ∧ c.ref_string_set = (get_string_and_numbers_sets l).1
      ∧ c.ref_numbers_set = (get_string_and_numbers_sets l).2
      ∧ c.reference_theta_sketch = l
      ∧ c.string_theta_sketch = (get_string_and_numbers_sets l).1
      ∧ c.numbers_theta_sketch = (get_string_and_numbers_sets l).2)
  ∨ (c.op = .BTWN ∧ c.noRefAttrs ∧ c.second_field = none
    ∧ c.third_field = none
    ∧ ∃ v u, c.value = some v ∧ c.upper_value = some u
      ∧ v.isIntFloat = true ∧ u.isIntFloat = true ∧ v.toRat < u.toRat)
  ∨ (c.op = .BTWN ∧ c.noRefAttrs ∧ c.value = none ∧ c.upper_value = none
    ∧ c.second_field.isSome = true ∧ c.third_field.isSome = true)
  ∨ (summaryFuncOps.contains c.op = true ∧ c.op ≠ .BTWN ∧ c.noRefAttrs
    ∧ c.upper_value = none ∧ c.third_field = none
    ∧ ((c.value.isSome = true ∧ c.second_field = none)
      ∨ (c.second_field.isSome = true ∧ c.value = none)))

/-- The wire message produced by serializing `vcMatchAbc1`. -/
def vcMatchAbc1Msg : ValueConstraintMsg :=
  { name := "value MATCH abc", op := .MATCH, value := none,
    regex_pattern := some "abc", verbose := false }

/-- The constraint obtained by deserializing `vcMatchAbc1Msg`: a
*literal* constraint on the unset-field default `0.0`, counters zeroed. -/
def vcMatchAbc1RoundTrip : ValueConstraint :=
  { _name := some "value MATCH abc", _verbose := false, op := .MATCH,
    total := 0, failures := 0, value := some (.num 0),
    regex_pattern := none }

/-- A value-constraint collection with the two-character key `"ab"`. -/
def vcsAb : ValueConstraints := ⟨[("ab", vcEq3a)]⟩

/-! ## Theorems -/

/-- Python `==` is reflexive on the embedded scalars. -/
theorem pyEqB_refl (v : PyVal) : pyCompare.pyEqB v v = true := by
  cases v <;> simp [pyCompare.pyEqB]

/-- C4: for every constructed `ValueConstraint` or `SummaryConstraint`
and every input, one `update` call increases `total` by exactly 1 and
never decreases `failures` (in particular on every input it accepts). -/
theorem C4_update_total_plus_one_failures_monotone
    (matcher : String → String → Bool) (vc : ValueConstraint) (v : PyVal)
    (sc : SummaryConstraint) (d : UpdateDict) :
    ((ValueConstraint.update matcher vc v).1.total = vc.total + 1
      ∧ vc.failures ≤ (ValueConstraint.update matcher vc v).1.failures)
    ∧ ((SummaryConstraint.update sc d).1.total = sc.total + 1
      ∧ sc.failures ≤ (SummaryConstraint.update sc d).1.failures) := by
  constructor
  · unfold ValueConstraint.update
    dsimp only
    split
    · exact ⟨rfl, Nat.le_succ _⟩
    · split
      · exact ⟨rfl, Nat.le_refl _⟩
      · exact ⟨rfl, Nat.le_refl _⟩
      · exact ⟨rfl, Nat.le_succ _⟩
  · unfold SummaryConstraint.update
    dsimp only
    split
    · split
      · exact ⟨rfl, Nat.le_succ _⟩
      · exact ⟨rfl, Nat.le_refl _⟩
    · split
      · exact ⟨rfl, Nat.le_refl _⟩
      · exact ⟨rfl, Nat.le_refl _⟩
      · exact ⟨rfl, Nat.le_succ _⟩

/-- C5: a `MATCH`/`NOMATCH` value constraint applied to a non-text value
counts the value as a failure (`failures` increments with `total`) and
never raises, whatever the value's content. -/
theorem C5_match_on_nontext_counts_failure_never_raises
    (matcher : String → String → Bool) (c : ValueConstraint) (v : PyVal)
    (hop : c.op = .MATCH ∨ c.op = .NOMATCH) (hv : v.isStr = false) :
    ValueConstraint.update matcher c v
      = ({ c with total := c.total + 1, failures := c.failures + 1 }, none) := by
  unfold ValueConstraint.update
  rcases hop with h | h <;> simp [h, hv]

/-- C5 witness: updating the fresh `MATCH` constraint with the number
`3` yields `total = 1`, `failures = 1` and no exception. -/
theorem C5_witness :
    ValueConstraint.update (fun _ _ => false) vcMatchAbc (.num 3)
      = ({ vcMatchAbc with total := 1, failures := 1 }, none) :=
  C5_match_on_nontext_counts_failure_never_raises (fun _ _ => false)
    vcMatchAbc (.num 3) (Or.inl rfl) rfl

/-- C10: `update` only ever changes the counters: every other attribute
of a `ValueConstraint` (name, verbosity, operator, literal value, regex
pattern) and of a `SummaryConstraint` (fields, operands, reference set,
derived subsets and sketches) is unchanged by every call, raising or
not. -/
theorem C10_update_frame_only_counters
    (matcher : String → String → Bool) (vc : ValueConstraint) (v : PyVal)
    (sc : SummaryConstraint) (d : UpdateDict) :
    ((ValueConstraint.update matcher vc v).1._name = vc._name
      ∧ (ValueConstraint.update matcher vc v).1._verbose = vc._verbose
      ∧ (ValueConstraint.update matcher vc v).1.op = vc.op
      ∧ (ValueConstraint.update matcher vc v).1.value = vc.value
      ∧ (ValueConstraint.update matcher vc v).1.regex_pattern
          = vc.regex_pattern)
    ∧ ((SummaryConstraint.update sc d).1._name = sc._name
      ∧ (SummaryConstraint.update sc d).1._verbose = sc._verbose
      ∧ (SummaryConstraint.update sc d).1.op = sc.op
      ∧ (SummaryConstraint.update sc d).1.first_field = sc.first_field
      ∧ (SummaryConstraint.update sc d).1.second_field = sc.second_field
      ∧ (SummaryConstraint.update sc d).1.third_field = sc.third_field
      ∧ (SummaryConstraint.update sc d).1.value = sc.value
      ∧ (SummaryConstraint.update sc d).1.upper_value = sc.upper_value
      ∧ (SummaryConstraint.update sc d).1.reference_set = sc.reference_set
      ∧ (SummaryConstraint.update sc d).1.ref_string_set = sc.ref_string_set
      ∧ (SummaryConstraint.update sc d).1.ref_numbers_set = sc.ref_numbers_set
      ∧ (SummaryConstraint.update sc d).1.reference_theta_sketch
          = sc.reference_theta_sketch
      ∧ (SummaryConstraint.update sc d).1.string_theta_sketch
          = sc.string_theta_sketch
      ∧ (SummaryConstraint.update sc d).1.numbers_theta_sketch
          = sc.numbers_theta_sketch) := by
  constructor
  · unfold ValueConstraint.update
    dsimp only
    split
    · exact ⟨rfl, rfl, rfl, rfl, rfl⟩
    · split <;> exact ⟨rfl, rfl, rfl, rfl, rfl⟩
  · unfold SummaryConstraint.update
    dsimp only
    split
    · split <;>
        exact ⟨rfl, rfl, rfl, rfl, rfl, rfl, rfl, rfl, rfl, rfl, rfl, rfl,
          rfl, rfl⟩
    · split <;>
        exact ⟨rfl, rfl, rfl, rfl, rfl, rfl, rfl, rfl, rfl, rfl, rfl, rfl,
          rfl, rfl⟩

/-- C8: indexing a constraint collection by name never returns a stored
constraint — the lookup guards on the misspelled attribute `contraints`
and unconditionally raises `AttributeError`. -/
theorem C8_getitem_always_attribute_error
    (vcs : ValueConstraints) (scs : SummaryConstraints) (name : String)
    (hv : vcs.constraints ≠ []) (hs : scs.constraints ≠ []) :
    (∃ msg, vcs.getitem name = .error (.attributeError msg))
    ∧ (∃ msg, scs.getitem name = .error (.attributeError msg)) :=
  ⟨⟨_, rfl⟩, ⟨_, rfl⟩⟩

/-- C8 witness: looking up `"alpha"` in the singleton collections raises
the attribute error. -/
theorem C8_witness :
    vcsAlpha.constraints ≠ [] ∧ scsGamma.constraints ≠ []
      ∧ ((∃ msg, vcsAlpha.getitem "alpha" = .error (.attributeError msg))
        ∧ (∃ msg, scsGamma.getitem "alpha" = .error (.attributeError msg))) :=
  ⟨by decide, by decide,
    C8_getitem_always_attribute_error vcsAlpha scsGamma "alpha"
      (by decide) (by decide)⟩

/-- C9: building a set-relation summary constraint from an empty (or any
falsy) reference set is rejected at construction with the same
`ValueError` that rejects a missing reference set. -/
theorem C9_setop_falsy_reference_set_rejected
    (ff : String) (op : Op) (v uv : Option PyVal) (sf tf : Option String)
    (rs : Option (List PyVal)) (nm : Option String) (vb : Bool)
    (hop : setOps.contains op = true) (hrs : rs = none ∨ rs = some []) :
    SummaryConstraint.init ff op v uv sf tf rs nm vb
      = .error (.valueError
        "When using set operations only set should be provided and not values or field names!") := by
  have hmem : op ∈ setOps := by simpa using hop
  unfold SummaryConstraint.init
  rcases hrs with h | h <;> simp [h, hmem, optListTruthy]

/-- C9 witness: `IN_SET` with the empty reference set and with a missing
reference set both fail with that `ValueError`. -/
theorem C9_witness :
    SummaryConstraint.init "distinct_column_values" .IN_SET none none none
        none (some []) none false
      = .error (.valueError
        "When using set operations only set should be provided and not values or field names!") :=
  C9_setop_falsy_reference_set_rejected "distinct_column_values" .IN_SET
    none none none none (some []) none false (by decide) (Or.inr rfl)

/-- C6: constructing a `BTWN` summary constraint from two literal bounds
fails with a configuration error (`TypeError` or `ValueError`) unless
both bounds are numeric and the lower bound is strictly less than the
upper; in particular equal bounds are rejected. -/
theorem C6_between_literal_bounds_validated
    (ff : String) (v u : PyVal) (sf tf : Option String)
    (rs : Option (List PyVal)) (nm : Option String) (vb : Bool)
    (h : ¬(v.isIntFloat = true ∧ u.isIntFloat = true ∧ v.toRat < u.toRat)) :
    ∃ e, SummaryConstraint.init ff .BTWN (some v) (some u) sf tf rs nm vb
        = .error e ∧ e.isConfigError = true := by
  unfold SummaryConstraint.init
  dsimp only
  split_ifs with hs h1 h2 h3 h4 <;>
    first
      | exact ⟨_, rfl, rfl⟩
      | exact absurd hs (by decide)
      | · exfalso
          simp_all

/-- C6 witness: equal literal bounds (`BTWN 1 and 1`) are rejected with a
configuration error. -/
theorem C6_witness :
    ¬((PyVal.num 1).isIntFloat = true ∧ (PyVal.num 1).isIntFloat = true
        ∧ (PyVal.num 1).toRat < (PyVal.num 1).toRat)
    ∧ ∃ e, SummaryConstraint.init "min" .BTWN (some (.num 1)) (some (.num 1))
        none none none none false = .error e ∧ e.isConfigError = true :=
  ⟨by decide,
    C6_between_literal_bounds_validated "min" (.num 1) (.num 1) none none
      none none false (by decide)⟩

/-- C7: a successfully constructed set-relation summary constraint
derives a string subset holding exactly the string members of the
supplied reference set and a numbers subset holding exactly its
non-boolean real-number members (booleans are excluded). -/
theorem C7_reference_set_partition
    (ff : String) (op : Op) (v uv : Option PyVal) (sf tf : Option String)
    (rs : Option (List PyVal)) (nm : Option String) (vb : Bool)
    (c : SummaryConstraint)
    (hop : setOps.contains op = true)
    (hinit : SummaryConstraint.init ff op v uv sf tf rs nm vb = .ok c) :
    (∀ x : PyVal, x ∈ c.ref_string_set ↔ x ∈ rs.getD [] ∧ x.isStr = true)
    ∧ (∀ x : PyVal, x ∈ c.ref_numbers_set
        ↔ x ∈ rs.getD [] ∧ x.isReal = true ∧ x.isBool = false) := by
  unfold SummaryConstraint.init at hinit
  simp only [hop, eq_self_iff_true, if_true] at hinit
  split at hinit
  · simp at hinit
  · injection hinit with h
    subst h
    constructor <;> intro x <;>
      simp [get_string_and_numbers_sets, List.mem_filter, List.mem_dedup,
        and_assoc]

/-- C7 witness: on the set `{"a", 2, True}` the boolean member is not in
the derived numbers subset even though it is a real-number instance. -/
theorem C7_witness :
    (PyVal.boolean true) ∈ scInSetEx.ref_numbers_set
      ↔ (PyVal.boolean true)
            ∈ (some [PyVal.str "a", PyVal.num 2, PyVal.boolean true]
                : Option (List PyVal)).getD []
          ∧ (PyVal.boolean true).isReal = true
          ∧ (PyVal.boolean true).isBool = false :=
  (C7_reference_set_partition "distinct_column_values" .IN_SET none none
    none none (some [.str "a", .num 2, .boolean true]) none false scInSetEx
    (by decide) (by decide)).2 (.boolean true)

/-- C2 (code defect): collection `merge` iterates the `constraints`
*dict* itself, unpacking each key string as a `(name, constraint)` pair.
With any non-empty `self` it raises an unpacking `ValueError` (or, for a
two-character key, an `AttributeError` on the character) — never the
incompatible-merge error the spec requires for differing member-name
sets — and with an empty `self` it silently returns `other`'s
constraints, keeping every unmatched member. -/
theorem C2_collection_merge_never_checks_name_sets :
    vcsAlpha.merge (some vcsBeta) = .error (.valueError "values to unpack")
    ∧ scsGamma.merge (some scsDelta)
        = .error (.valueError "values to unpack")
    ∧ vcsAlpha.merge (some vcsAlpha)
        = .error (.valueError "values to unpack")
    ∧ vcsAb.merge (some vcsAb)
        = .error (.attributeError "'str' object has no attribute 'merge'")
    ∧ (⟨[]⟩ : ValueConstraints).merge (some vcsBeta) = .ok vcsBeta
    ∧ (⟨[]⟩ : SummaryConstraints).merge (some scsDelta) = .ok scsDelta := by
  refine ⟨rfl, rfl, rfl, ?_, rfl, rfl⟩
  decide

/-- A `name` attribute set explicitly is what the `name` property of a
value constraint returns, whatever the operand shape. -/
theorem ValueConstraint.namePropV_some (c : ValueConstraint) (n : String)
    (h : c._name = some n) : c.nameProp = .ok n := by
  unfold nameProp
  rw [h]
  split <;> simp

/-- A `name` attribute set explicitly is what the `name` property of a
summary constraint returns, provided the set-operator branch can read
its reference set. -/
theorem SummaryConstraint.namePropS_some (c : SummaryConstraint) (n : String)
    (h : c._name = some n)
    (href : setOps.contains c.op = true → c.reference_set.isSome = true) :
    c.nameProp = .ok n := by
  unfold nameProp
  rw [h]
  split_ifs with h1 h2
  · rcases Option.isSome_iff_exists.mp (href h1) with ⟨l, hl⟩
    rw [hl]
    simp
  · simp
  · simp

/-- Python `==` on equal optional scalars. -/
theorem pyEqOpt_refl (v : Option PyVal) : pyEqOpt v v = true := by
  cases v with
  | none => rfl
  | some x => simpa [pyEqOpt] using pyEqB_refl x

/-- Set equality is reflexive up to membership. -/
theorem sameSet_self (l : List PyVal) : sameSet l l = true := by
  simp [sameSet, List.all_eq_true]

/-- Deduplication changes no membership, so compares equal as a set. -/
theorem sameSet_dedup (l : List PyVal) : sameSet l.dedup l = true := by
  simp [sameSet, List.all_eq_true, List.mem_dedup]

/-- An operator of the non-`BTWN` summary-function table is not a set
operator. -/
theorem setOps_not_contains_of_summaryFuncOps (op : Op)
    (h : summaryFuncOps.contains op = true) (hb : op ≠ .BTWN) :
    setOps.contains op = false := by
  cases op <;> revert h hb <;> decide

/-- Evaluation of `SummaryConstraint.init` for a set operator with a
non-empty reference set and no other operands. -/
theorem SummaryConstraint.init_set (ff : String) (op : Op) (l : List PyVal)
    (nm : Option String) (vb : Bool)
    (hop : setOps.contains op = true) (hne : l ≠ []) :
    SummaryConstraint.init ff op none none none none (some l) nm vb = .ok
      { _verbose := vb, _name := nm, op := op, first_field := ff,
        second_field := none, third_field := none, total := 0, failures := 0,
        value := none, upper_value := none, reference_set := some l.dedup,
        ref_string_set := (get_string_and_numbers_sets l.dedup).1,
        ref_numbers_set := (get_string_and_numbers_sets l.dedup).2,
        reference_theta_sketch := l.dedup,
        string_theta_sketch := (get_string_and_numbers_sets l.dedup).1,
        numbers_theta_sketch := (get_string_and_numbers_sets l.dedup).2 } := by
  have hmem : op ∈ setOps := by simpa using hop
  have hemp : l.isEmpty = false := by simpa [List.isEmpty_iff] using hne
  unfold SummaryConstraint.init
  simp [hmem, optTruthy, optStrTruthy, optListTruthy, hemp]

/-- Evaluation of `SummaryConstraint.init` for `BTWN` with two valid
literal bounds. -/
theorem SummaryConstraint.init_btwn_lit (ff : String) (v u : PyVal)
    (rs : Option (List PyVal)) (nm : Option String) (vb : Bool)
    (hv : v.isIntFloat = true) (hu : u.isIntFloat = true)
    (hlt : v.toRat < u.toRat) :
    SummaryConstraint.init ff .BTWN (some v) (some u) none none rs nm vb
      = .ok
      { _verbose := vb, _name := nm, op := .BTWN, first_field := ff,
        second_field := none, third_field := none, total := 0, failures := 0,
        value := some v, upper_value := some u, reference_set := none,
        ref_string_set := [], ref_numbers_set := [],
        reference_theta_sketch := [], string_theta_sketch := [],
        numbers_theta_sketch := [] } := by
  have hns : Op.BTWN ∉ setOps := by decide
  unfold SummaryConstraint.init
  simp [hns, hv, hu, not_le.mpr hlt]

/-- Evaluation of `SummaryConstraint.init` for `BTWN` with two bound
fields. -/
theorem SummaryConstraint.init_btwn_fields (ff f2 f3 : String)
    (rs : Option (List PyVal)) (nm : Option String) (vb : Bool) :
    SummaryConstraint.init ff .BTWN none none (some f2) (some f3) rs nm vb
      = .ok
      { _verbose := vb, _name := nm, op := .BTWN, first_field := ff,
        second_field := some f2, third_field := some f3, total := 0,
        failures := 0, value := none, upper_value := none,
        reference_set := none, ref_string_set := [], ref_numbers_set := [],
        reference_theta_sketch := [], string_theta_sketch := [],
        numbers_theta_sketch := [] } := by
  have hns : Op.BTWN ∉ setOps := by decide
  unfold SummaryConstraint.init
  simp [hns]

/-- Evaluation of `SummaryConstraint.init` for an order/equality
operator with a literal value. -/
theorem SummaryConstraint.init_ord_value (ff : String) (op : Op) (v : PyVal)
    (rs : Option (List PyVal)) (nm : Option String) (vb : Bool)
    (h1 : summaryFuncOps.contains op = true) (h2 : op ≠ .BTWN) :
    SummaryConstraint.init ff op (some v) none none none rs nm vb = .ok
      { _verbose := vb, _name := nm, op := op, first_field := ff,
        second_field := none, third_field := none, total := 0, failures := 0,
        value := some v, upper_value := none, reference_set := none,
        ref_string_set := [], ref_numbers_set := [],
        reference_theta_sketch := [], string_theta_sketch := [],
        numbers_theta_sketch := [] } := by
  have hset : op ∉ setOps := by
    simpa using setOps_not_contains_of_summaryFuncOps op h1 h2
  have h1m : op ∈ summaryFuncOps := by simpa using h1
  unfold SummaryConstraint.init
  simp [hset, h1m, h2]

/-- Evaluation of `SummaryConstraint.init` for an order/equality
operator with a second field. -/
theorem SummaryConstraint.init_ord_field (ff : String) (op : Op) (f2 : String)
    (rs : Option (List PyVal)) (nm : Option String) (vb : Bool)
    (h1 : summaryFuncOps.contains op = true) (h2 : op ≠ .BTWN) :
    SummaryConstraint.init ff op none none (some f2) none rs nm vb = .ok
      { _verbose := vb, _name := nm, op := op, first_field := ff,
        second_field := some f2, third_field := none, total := 0,
        failures := 0, value := none, upper_value := none,
        reference_set := none, ref_string_set := [], ref_numbers_set := [],
        reference_theta_sketch := [], string_theta_sketch := [],
        numbers_theta_sketch := [] } := by
  have hset : op ∉ setOps := by
    simpa using setOps_not_contains_of_summaryFuncOps op h1 h2
  have h1m : op ∈ summaryFuncOps := by simpa using h1
  unfold SummaryConstraint.init
  simp [hset, h1m, h2]

/-- Round trip of a well-formed literal value constraint: the message
carries operator, name, verbose and the literal; the reconstructed
constraint repeats them with zeroed counters. -/
theorem ValueConstraint.roundtrip_literal (c : ValueConstraint) (v : PyVal)
    (n : String) (hv : c.value = some v)
    (hops : valueFuncOps.contains c.op = true) (hn : c.nameProp = .ok n) :
    ∃ m c', c.to_protobuf = .ok m
      ∧ ValueConstraint.from_protobuf m = .ok c'
      ∧ c'.op = c.op ∧ c'.value = some v ∧ c'.regex_pattern = none
      ∧ c'._verbose = c._verbose ∧ c'.nameProp = .ok n
      ∧ c'.total = 0 ∧ c'.failures = 0 := by
  have hops' : c.op ∈ valueFuncOps := by simpa using hops
  refine ⟨{ name := n, op := c.op, value := some v, regex_pattern := none,
            verbose := c._verbose },
          { _name := some n, _verbose := c._verbose, op := c.op, total := 0,
            failures := 0, value := some v, regex_pattern := none },
          ?_, ?_, rfl, rfl, rfl, rfl, ?_, rfl, rfl⟩
  · unfold to_protobuf
    rw [hn, hv]
    rfl
  · unfold from_protobuf init
    simp [hops']
  · exact ValueConstraint.namePropV_some _ _ rfl

/-- `bind` of the embedded exception monad on a success. -/
theorem exceptBind_ok {α β : Type} (a : α) (f : α → Except PyErr β) :
    ((.ok a : Except PyErr α) >>= f) = f a := rfl

/-- Round trip of a well-formed summary constraint of any operand shape:
operator, fields, operand contents and the reference set are reproduced;
the counters are not carried and restart at zero. -/
theorem SummaryConstraint.roundtrip_wf (c : SummaryConstraint) (n : String)
    (hwf : c.shapeWF) (hn : c.nameProp = .ok n) :
    ∃ m c', c.to_protobuf = .ok m
      ∧ SummaryConstraint.from_protobuf m = .ok (some c')
      ∧ c'.op = c.op ∧ c'.first_field = c.first_field
      ∧ c'.second_field = c.second_field ∧ c'.third_field = c.third_field
      ∧ c'.value = c.value ∧ c'.upper_value = c.upper_value
      ∧ c'.reference_set = c.reference_set
      ∧ c'._verbose = c._verbose ∧ c'.nameProp = .ok n
      ∧ c'.total = 0 ∧ c'.failures = 0 := by
  rcases hwf with
      ⟨hop, hv, hu, hsf, htf, l, hrs, hne, hnd, e1, e2, e3, e4, e5⟩
    | ⟨hop, ⟨r1, r2, r3, r4, r5, r6⟩, hsf, htf, v, u, hv, hu, hif1, hif2, hlt⟩
    | ⟨hop, ⟨r1, r2, r3, r4, r5, r6⟩, hv, hu, hsf, htf⟩
    | ⟨hops, hnb, ⟨r1, r2, r3, r4, r5, r6⟩, hu, htf, hvc⟩
  · -- set-relation shape
    have hd : l.dedup = l := List.dedup_eq_self.mpr hnd
    refine ⟨{ name := n, first_field := c.first_field, op := c.op,
              value := none, second_field := none, between := none,
              reference_set := some l, verbose := c._verbose },
            { _verbose := c._verbose, _name := some n, op := c.op,
              first_field := c.first_field, second_field := none,
              third_field := none, total := 0, failures := 0, value := none,
              upper_value := none, reference_set := some l,
              ref_string_set := (get_string_and_numbers_sets l).1,
              ref_numbers_set := (get_string_and_numbers_sets l).2,
              reference_theta_sketch := l,
              string_theta_sketch := (get_string_and_numbers_sets l).1,
              numbers_theta_sketch := (get_string_and_numbers_sets l).2 },
            ?_, ?_, rfl, rfl, hsf.symm, htf.symm, hv.symm, hu.symm,
            hrs.symm, rfl, ?_, rfl, rfl⟩
    · unfold to_protobuf
      rw [hn, hop, hrs]
      rfl
    · show (SummaryConstraint.init c.first_field c.op none none none none
          (some l.dedup) (some n) c._verbose).map some = _
      rw [hd, SummaryConstraint.init_set c.first_field c.op l (some n)
        c._verbose hop hne, hd]
      rfl
    · exact SummaryConstraint.namePropS_some _ n rfl (fun _ => rfl)
  · -- BTWN with two literal bounds
    refine ⟨{ name := n, first_field := c.first_field, op := .BTWN,
              value := none, second_field := none,
              between := some { lower_value := some v, upper_value := some u,
                                second_field := none, third_field := none },
              reference_set := none, verbose := c._verbose },
            { _verbose := c._verbose, _name := some n, op := .BTWN,
              first_field := c.first_field, second_field := none,
              third_field := none, total := 0, failures := 0,
              value := some v, upper_value := some u, reference_set := none,
              ref_string_set := [], ref_numbers_set := [],
              reference_theta_sketch := [], string_theta_sketch := [],
              numbers_theta_sketch := [] },
            ?_, ?_, hop.symm, rfl, hsf.symm, htf.symm, hv.symm, hu.symm,
            r1.symm, rfl, ?_, rfl, rfl⟩
    · unfold to_protobuf
      rw [hn, hop, hsf, htf, hv, hu]
      rfl
    · show (SummaryConstraint.init c.first_field .BTWN (some v) (some u)
          none none none (some n) c._verbose).map some = _
      rw [SummaryConstraint.init_btwn_lit c.first_field v u none (some n)
        c._verbose hif1 hif2 hlt]
      rfl
    · exact SummaryConstraint.namePropS_some _ n rfl (by intro h; simp [setOps] at h)
  · -- BTWN with two bound fields
    rcases Option.isSome_iff_exists.mp hsf with ⟨f2, hf2⟩
    rcases Option.isSome_iff_exists.mp htf with ⟨f3, hf3⟩
    refine ⟨{ name := n, first_field := c.first_field, op := .BTWN,
              value := none, second_field := none,
              between := some { lower_value := none, upper_value := none,
                                second_field := some f2,
                                third_field := some f3 },
              reference_set := none, verbose := c._verbose },
            { _verbose := c._verbose, _name := some n, op := .BTWN,
              first_field := c.first_field, second_field := some f2,
              third_field := some f3, total := 0, failures := 0,
              value := none, upper_value := none, reference_set := none,
              ref_string_set := [], ref_numbers_set := [],
              reference_theta_sketch := [], string_theta_sketch := [],
              numbers_theta_sketch := [] },
            ?_, ?_, hop.symm, rfl, hf2.symm, hf3.symm, hv.symm, hu.symm,
            r1.symm, rfl, ?_, rfl, rfl⟩
    · unfold to_protobuf
      rw [hn, hop, hf2, hf3]
      rfl
    · show (SummaryConstraint.init c.first_field .BTWN none none (some f2)
          (some f3) none (some n) c._verbose).map some = _
      rw [SummaryConstraint.init_btwn_fields c.first_field f2 f3 none
        (some n) c._verbose]
      rfl
    · exact SummaryConstraint.namePropS_some _ n rfl (by intro h; simp [setOps] at h)
  · -- order/equality operator
    have hsetf : setOps.contains c.op = false :=
      setOps_not_contains_of_summaryFuncOps c.op hops hnb
    rcases hvc with ⟨hv, hsf⟩ | ⟨hsf, hv⟩
    · -- against a literal value
      rcases Option.isSome_iff_exists.mp hv with ⟨v, hv'⟩
      refine ⟨{ name := n, first_field := c.first_field, op := c.op,
                value := some v, second_field := none, between := none,
                reference_set := none, verbose := c._verbose },
              { _verbose := c._verbose, _name := some n, op := c.op,
                first_field := c.first_field, second_field := none,
                third_field := none, total := 0, failures := 0,
                value := some v, upper_value := none, reference_set := none,
                ref_string_set := [], ref_numbers_set := [],
                reference_theta_sketch := [], string_theta_sketch := [],
                numbers_theta_sketch := [] },
              ?_, ?_, rfl, rfl, hsf.symm, htf.symm, hv'.symm, hu.symm,
              r1.symm, rfl, ?_, rfl, rfl⟩
      · unfold to_protobuf
        rw [hn]
        simp only [exceptBind_ok]
        rw [if_neg (show ¬(setOps.contains c.op = true) by
            intro h; rw [hsetf] at h; exact Bool.noConfusion h),
          if_neg hnb, hsf, hv']
        rfl
      · show (SummaryConstraint.init c.first_field c.op (some v) none none
            none none (some n) c._verbose).map some = _
        rw [SummaryConstraint.init_ord_value c.first_field c.op v none
          (some n) c._verbose hops hnb]
        rfl
      · exact SummaryConstraint.namePropS_some _ n rfl
          (by intro h; rw [hsetf] at h; exact Bool.noConfusion h)
    · -- against a second field
      rcases Option.isSome_iff_exists.mp hsf with ⟨f2, hf2⟩
      refine ⟨{ name := n, first_field := c.first_field, op := c.op,
                value := none, second_field := some f2, between := none,
                reference_set := none, verbose := c._verbose },
              { _verbose := c._verbose, _name := some n, op := c.op,
                first_field := c.first_field, second_field := some f2,
                third_field := none, total := 0, failures := 0,
                value := none, upper_value := none, reference_set := none,
                ref_string_set := [], ref_numbers_set := [],
                reference_theta_sketch := [], string_theta_sketch := [],
                numbers_theta_sketch := [] },
              ?_, ?_, rfl, rfl, hf2.symm, htf.symm, hv.symm, hu.symm,
              r1.symm, rfl, ?_, rfl, rfl⟩
      · unfold to_protobuf
        rw [hn]
        simp only [exceptBind_ok]
        rw [if_neg (show ¬(setOps.contains c.op = true) by
            intro h; rw [hsetf] at h; exact Bool.noConfusion h),
          if_neg hnb, hf2]
        rfl
      · show (SummaryConstraint.init c.first_field c.op none none (some f2)
            none none (some n) c._verbose).map some = _
        rw [SummaryConstraint.init_ord_field c.first_field c.op f2 none
          (some n) c._verbose hops hnb]
        rfl
      · exact SummaryConstraint.namePropS_some _ n rfl
          (by intro h; rw [hsetf] at h; exact Bool.noConfusion h)

/-- C3 counterexample: serializing the regex constraint `vcMatchAbc1`
(pattern `"abc"`, `total = 1`) and deserializing the message yields a
constraint whose operand is the *literal* `0.0` instead of the pattern
and whose `total` is `0`, so the round trip preserves neither the
operand shape nor the counters. -/
theorem C3_counterexample :
    vcMatchAbc1.to_protobuf = .ok vcMatchAbc1Msg
    ∧ ValueConstraint.from_protobuf vcMatchAbc1Msg = .ok vcMatchAbc1RoundTrip
    ∧ ¬(vcMatchAbc1RoundTrip.total = vcMatchAbc1.total
        ∧ vcMatchAbc1RoundTrip.regex_pattern = vcMatchAbc1.regex_pattern) :=
  ⟨rfl, rfl, by decide⟩

/-- C3 (amended): for literal-valued value constraints and for summary
constraints of every operand shape, `to_protobuf` then `from_protobuf`
reproduces the operator, the operand contents (literal, fields, bounds,
reference set) and the rendered name; the counters are not serialized
and restart at zero in the deserialized constraint.  (Regex-pattern
value constraints are excluded: deserialization reads only the literal
field.) -/
theorem C3_roundtrip_preserves_shape_and_resets_counters
    (vc : ValueConstraint) (v : PyVal) (nv : String)
    (sc : SummaryConstraint) (ns : String)
    (hv : vc.value = some v) (hops : valueFuncOps.contains vc.op = true)
    (hnv : vc.nameProp = .ok nv)
    (hwf : sc.shapeWF) (hns : sc.nameProp = .ok ns) :
    (∃ m c', vc.to_protobuf = .ok m
      ∧ ValueConstraint.from_protobuf m = .ok c'
      ∧ c'.op = vc.op ∧ c'.value = some v ∧ c'.regex_pattern = none
      ∧ c'._verbose = vc._verbose ∧ c'.nameProp = .ok nv
      ∧ c'.total = 0 ∧ c'.failures = 0)
    ∧ (∃ m c', sc.to_protobuf = .ok m
      ∧ SummaryConstraint.from_protobuf m = .ok (some c')
      ∧ c'.op = sc.op ∧ c'.first_field = sc.first_field
      ∧ c'.second_field = sc.second_field ∧ c'.third_field = sc.third_field
      ∧ c'.value = sc.value ∧ c'.upper_value = sc.upper_value
      ∧ c'.reference_set = sc.reference_set
      ∧ c'._verbose = sc._verbose ∧ c'.nameProp = .ok ns
      ∧ c'.total = 0 ∧ c'.failures = 0) :=
  ⟨ValueConstraint.roundtrip_literal vc v nv hv hops hnv,
   SummaryConstraint.roundtrip_wf sc ns hwf hns⟩

/-- C3 witness: the literal constraint `value EQ 3` (named `"eq3"`,
counters `(1,1)`) and the summary constraint `min GE 0` (counters
`(3,1)`) both round-trip with shape intact and counters reset. -/
theorem C3_witness :
    (∃ m c', vcEq3a.to_protobuf = .ok m
      ∧ ValueConstraint.from_protobuf m = .ok c'
      ∧ c'.op = vcEq3a.op ∧ c'.value = some (.num 3)
      ∧ c'.regex_pattern = none ∧ c'._verbose = vcEq3a._verbose
      ∧ c'.nameProp = .ok "eq3" ∧ c'.total = 0 ∧ c'.failures = 0)
    ∧ (∃ m c', scMinGE0a.to_protobuf = .ok m
      ∧ SummaryConstraint.from_protobuf m = .ok (some c')
      ∧ c'.op = scMinGE0a.op ∧ c'.first_field = scMinGE0a.first_field
      ∧ c'.second_field = scMinGE0a.second_field
      ∧ c'.third_field = scMinGE0a.third_field
      ∧ c'.value = scMinGE0a.value
      ∧ c'.upper_value = scMinGE0a.upper_value
      ∧ c'.reference_set = scMinGE0a.reference_set
      ∧ c'._verbose = scMinGE0a._verbose
      ∧ c'.nameProp = .ok "summary min GE 0/None"
      ∧ c'.total = 0 ∧ c'.failures = 0) :=
  C3_roundtrip_preserves_shape_and_resets_counters vcEq3a (.num 3) "eq3"
    scMinGE0a "summary min GE 0/None" rfl (by decide) (by decide)
    (Or.inr (Or.inr (Or.inr ⟨by decide, by decide,
      ⟨rfl, rfl, rfl, rfl, rfl, rfl⟩, rfl, rfl, Or.inl ⟨rfl, rfl⟩⟩)))
    (by decide)

/-- `pure` of the embedded exception monad bound into a continuation. -/
theorem exceptPure_bind {α β : Type} (a : α) (f : α → Except PyErr β) :
    ((pure a : Except PyErr α) >>= f) = f a := rfl

/-- Evaluation of `ValueConstraint.init` for a literal value and a
value-table operator. -/
theorem ValueConstraint.init_value (op : Op) (v : PyVal) (nm : Option String)
    (vb : Bool) (hops : valueFuncOps.contains op = true) :
    ValueConstraint.init op (some v) none nm vb = .ok
      { _name := nm, _verbose := vb, op := op, total := 0, failures := 0,
        value := some v, regex_pattern := none } := by
  have h : op ∈ valueFuncOps := by simpa using hops
  unfold ValueConstraint.init
  simp [h]

/-- Evaluation of `ValueConstraint.merge` on two literal constraints with
equal names, operators and values: a fresh constraint carrying `self`'s
identity and the summed counters. -/
theorem ValueConstraint.merge_lit (A B : ValueConstraint) (v : PyVal)
    (n : String) (hAv : A.value = some v) (hBv : B.value = some v)
    (hop : B.op = A.op) (hops : valueFuncOps.contains A.op = true)
    (hnA : A.nameProp = .ok n) (hnB : B.nameProp = .ok n) :
    A.merge (some B) = .ok
      { _name := some n, _verbose := A._verbose, op := A.op,
        total := A.total + B.total, failures := A.failures + B.failures,
        value := some v, regex_pattern := none } := by
  unfold merge
  rw [hnA]
  simp only [exceptBind_ok]
  rw [hnB]
  simp only [exceptBind_ok]
  rw [if_neg (show ¬(n ≠ n) by simp), hop,
    if_neg (show ¬(A.op ≠ A.op) by simp), hAv, hBv]
  simp only [exceptPure_bind]
  rw [if_neg (show ¬((!pyCompare.pyEqB v v) = true) by
    simp [pyEqB_refl v])]
  rw [ValueConstraint.init_value A.op v (some n) A._verbose hops]
  rfl

/-- A well-formed summary constraint has its reference set whenever its
operator is a set operator. -/
theorem SummaryConstraint.shapeWF_ref_present (A : SummaryConstraint)
    (h : A.shapeWF) :
    setOps.contains A.op = true → A.reference_set.isSome = true := by
  intro hc
  rcases h with ⟨_, _, _, _, _, l, hrs, _⟩ | ⟨hop, _⟩ | ⟨hop, _⟩
    | ⟨hops, hnb, _⟩
  · rw [hrs]; rfl
  · rw [hop] at hc; exact absurd hc (by decide)
  · rw [hop] at hc; exact absurd hc (by decide)
  · rw [setOps_not_contains_of_summaryFuncOps _ hops hnb] at hc
    exact Bool.noConfusion hc

/-- Well-formedness transfers along agreement on the shape-relevant
fields. -/
theorem SummaryConstraint.shapeWF_congr (A B : SummaryConstraint)
    (h : A.shapeWF)
    (hop : B.op = A.op) (hsf : B.second_field = A.second_field)
    (htf : B.third_field = A.third_field) (hv : B.value = A.value)
    (hu : B.upper_value = A.upper_value)
    (hrs : B.reference_set = A.reference_set)
    (h1 : B.ref_string_set = A.ref_string_set)
    (h2 : B.ref_numbers_set = A.ref_numbers_set)
    (h3 : B.reference_theta_sketch = A.reference_theta_sketch)
    (h4 : B.string_theta_sketch = A.string_theta_sketch)
    (h5 : B.numbers_theta_sketch = A.numbers_theta_sketch) :
    B.shapeWF := by
  unfold shapeWF SummaryConstraint.noRefAttrs at h ⊢
  rw [hop, hsf, htf, hv, hu, hrs, h1, h2, h3, h4, h5]
  exact h

/-- Well-formedness is indifferent to the name and the counters. -/
theorem SummaryConstraint.shapeWF_update (A : SummaryConstraint)
    (nm : Option String) (t f : ℕ) (h : A.shapeWF) :
    SummaryConstraint.shapeWF
      ⟨A._verbose, nm, A.op, A.first_field, A.second_field, A.third_field,
        t, f, A.value, A.upper_value, A.reference_set, A.ref_string_set,
        A.ref_numbers_set, A.reference_theta_sketch, A.string_theta_sketch,
        A.numbers_theta_sketch⟩ := h

/-- Evaluation of `SummaryConstraint.merge` on two well-formed summary
constraints with identical identity fields: a fresh constraint carrying
`self`'s identity under the rendered name, with the summed counters. -/
theorem SummaryConstraint.merge_wf (A B : SummaryConstraint) (n : String)
    (hwf : A.shapeWF)
    (hop : B.op = A.op) (hff : B.first_field = A.first_field)
    (hsf : B.second_field = A.second_field)
    (htf : B.third_field = A.third_field)
    (hv : B.value = A.value) (hu : B.upper_value = A.upper_value)
    (hrs : B.reference_set = A.reference_set)
    (hnA : A.nameProp = .ok n) (hnB : B.nameProp = .ok n) :
    A.merge (some B) = .ok
      ⟨A._verbose, some n, A.op, A.first_field, A.second_field,
        A.third_field, A.total + B.total, A.failures + B.failures, A.value,
        A.upper_value, A.reference_set, A.ref_string_set, A.ref_numbers_set,
        A.reference_theta_sketch, A.string_theta_sketch,
        A.numbers_theta_sketch⟩ := by
  unfold merge
  rw [hnA]
  simp only [exceptBind_ok]
  rw [hnB]
  simp only [exceptBind_ok]
  rw [if_neg (show ¬(n ≠ n) by simp), hop,
    if_neg (show ¬(A.op ≠ A.op) by simp), hv,
    if_neg (show ¬((!pyEqOpt A.value A.value) = true) by
      simp [pyEqOpt_refl]),
    hff, if_neg (show ¬(A.first_field ≠ A.first_field) by simp),
    hsf, if_neg (show ¬(A.second_field ≠ A.second_field) by simp)]
  rcases hwf with
      ⟨hopA, hvA, huA, hsfA, htfA, l, hrsA, hne, hnd, e1, e2, e3, e4, e5⟩
    | ⟨hopA, ⟨r1, r2, r3, r4, r5, r6⟩, hsfA, htfA, v, u, hvA, huA, hif1,
        hif2, hlt⟩
    | ⟨hopA, ⟨r1, r2, r3, r4, r5, r6⟩, hvA, huA, hsfA, htfA⟩
    | ⟨hopsA, hnbA, ⟨r1, r2, r3, r4, r5, r6⟩, huA, htfA, hvcA⟩
  · -- set-relation shape
    have hd : l.dedup = l := List.dedup_eq_self.mpr hnd
    rw [if_pos hopA, hrs, hrsA]
    simp only [exceptPure_bind]
    rw [if_neg (show ¬((!sameSet l l) = true) by simp [sameSet_self]),
      SummaryConstraint.init_set A.first_field A.op l (some n) A._verbose
        hopA hne]
    simp only [exceptBind_ok]
    show Except.ok _ = _
    rw [Except.ok.injEq, SummaryConstraint.mk.injEq]
    simp_all
  · -- BTWN with literal bounds
    rw [hopA, if_neg (show ¬(setOps.contains Op.BTWN = true) by decide),
      if_pos rfl, hu,
      if_neg (show ¬((!pyEqOpt A.upper_value A.upper_value) = true) by
        simp [pyEqOpt_refl]),
      htf, if_neg (show ¬(A.third_field ≠ A.third_field) by simp),
      hvA, huA, hsfA, htfA,
      SummaryConstraint.init_btwn_lit A.first_field v u none (some n)
        A._verbose hif1 hif2 hlt]
    simp only [exceptBind_ok]
    show Except.ok _ = _
    rw [Except.ok.injEq, SummaryConstraint.mk.injEq]
    simp_all
  · -- BTWN with bound fields
    rcases Option.isSome_iff_exists.mp hsfA with ⟨f2, hf2⟩
    rcases Option.isSome_iff_exists.mp htfA with ⟨f3, hf3⟩
    rw [hopA, if_neg (show ¬(setOps.contains Op.BTWN = true) by decide),
      if_pos rfl, hu,
      if_neg (show ¬((!pyEqOpt A.upper_value A.upper_value) = true) by
        simp [pyEqOpt_refl]),
      htf, if_neg (show ¬(A.third_field ≠ A.third_field) by simp),
      hvA, huA, hf2, hf3,
      SummaryConstraint.init_btwn_fields A.first_field f2 f3 none (some n)
        A._verbose]
    simp only [exceptBind_ok]
    show Except.ok _ = _
    rw [Except.ok.injEq, SummaryConstraint.mk.injEq]
    simp_all
  · -- order/equality operator
    have hns : setOps.contains A.op = false :=
      setOps_not_contains_of_summaryFuncOps A.op hopsA hnbA
    rw [if_neg (show ¬(setOps.contains A.op = true) by
        intro hcontra; rw [hns] at hcontra; exact Bool.noConfusion hcontra),
      if_neg hnbA]
    rcases hvcA with ⟨hvA, hsfA⟩ | ⟨hsfA, hvA⟩
    · rcases Option.isSome_iff_exists.mp hvA with ⟨v, hv2⟩
      rw [hv2, hsfA,
        SummaryConstraint.init_ord_value A.first_field A.op v none (some n)
          A._verbose hopsA hnbA]
      simp only [exceptBind_ok]
      show Except.ok _ = _
      rw [Except.ok.injEq, SummaryConstraint.mk.injEq]
      simp_all
    · rcases Option.isSome_iff_exists.mp hsfA with ⟨f2, hf2⟩
      rw [hvA, hf2,
        SummaryConstraint.init_ord_field A.first_field A.op f2 none (some n)
          A._verbose hopsA hnbA]
      simp only [exceptBind_ok]
      show Except.ok _ = _
      rw [Except.ok.injEq, SummaryConstraint.mk.injEq]
      simp_all

/-- C1 counterexample: two regex value constraints with identical
identity fields (same rendered name, operator and pattern) cannot be
merged at all — `merge` unconditionally reads `self.value`, an attribute
regex constraints lack, and raises `AttributeError` instead of returning
a constraint with summed counters. -/
theorem C1_counterexample :
    vcMatchAbc1.merge (some vcMatchAbc1)
      = .error (.attributeError "value") := by
  decide

/-- C1 (amended): for literal-valued value constraints and for
well-formed summary constraints of every operand shape, merging two
constraints with identical identity fields succeeds and returns a new
constraint whose `total` and `failures` are the sums of the operands';
the resulting counters are independent of the operand order and of the
grouping of successive merges.  (Regex-pattern value constraints are
excluded: their merge raises `AttributeError`.) -/
theorem C1_merge_sums_counters_commutative_associative
    (A B C : ValueConstraint) (v : PyVal) (n : String)
    (SA SB SC : SummaryConstraint) (m : String)
    (hAv : A.value = some v) (hBv : B.value = some v) (hCv : C.value = some v)
    (hopB : B.op = A.op) (hopC : C.op = A.op)
    (hops : valueFuncOps.contains A.op = true)
    (hnA : A.nameProp = .ok n) (hnB : B.nameProp = .ok n)
    (hnC : C.nameProp = .ok n)
    (hwfA : SA.shapeWF) (hwfB : SB.shapeWF) (hwfC : SC.shapeWF)
    (hidB : SB.op = SA.op ∧ SB.first_field = SA.first_field
      ∧ SB.second_field = SA.second_field ∧ SB.third_field = SA.third_field
      ∧ SB.value = SA.value ∧ SB.upper_value = SA.upper_value
      ∧ SB.reference_set = SA.reference_set)
    (hidC : SC.op = SA.op ∧ SC.first_field = SA.first_field
      ∧ SC.second_field = SA.second_field ∧ SC.third_field = SA.third_field
      ∧ SC.value = SA.value ∧ SC.upper_value = SA.upper_value
      ∧ SC.reference_set = SA.reference_set)
    (hmA : SA.nameProp = .ok m) (hmB : SB.nameProp = .ok m)
    (hmC : SC.nameProp = .ok m) :
    (∃ MAB MBA MBC NL NR : ValueConstraint,
      A.merge (some B) = .ok MAB
      ∧ MAB.total = A.total + B.total
      ∧ MAB.failures = A.failures + B.failures
      ∧ B.merge (some A) = .ok MBA
      ∧ MBA.total = MAB.total ∧ MBA.failures = MAB.failures
      ∧ B.merge (some C) = .ok MBC
      ∧ MAB.merge (some C) = .ok NL ∧ A.merge (some MBC) = .ok NR
      ∧ NL.total = NR.total ∧ NL.failures = NR.failures)
    ∧ (∃ SAB SBA SBC TL TR : SummaryConstraint,
      SA.merge (some SB) = .ok SAB
      ∧ SAB.total = SA.total + SB.total
      ∧ SAB.failures = SA.failures + SB.failures
      ∧ SB.merge (some SA) = .ok SBA
      ∧ SBA.total = SAB.total ∧ SBA.failures = SAB.failures
      ∧ SB.merge (some SC) = .ok SBC
      ∧ SAB.merge (some SC) = .ok TL ∧ SA.merge (some SBC) = .ok TR
      ∧ TL.total = TR.total ∧ TL.failures = TR.failures) := by
  obtain ⟨hb1, hb2, hb3, hb4, hb5, hb6, hb7⟩ := hidB
  obtain ⟨hc1, hc2, hc3, hc4, hc5, hc6, hc7⟩ := hidC
  have hopsB : valueFuncOps.contains B.op = true := by rw [hopB]; exact hops
  constructor
  · have hMAB := ValueConstraint.merge_lit A B v n hAv hBv hopB hops hnA hnB
    have hMBA :=
      ValueConstraint.merge_lit B A v n hBv hAv hopB.symm hopsB hnB hnA
    have hMBC := ValueConstraint.merge_lit B C v n hBv hCv
      (by rw [hopC, hopB]) hopsB hnB hnC
    have hNL := ValueConstraint.merge_lit
      { _name := some n, _verbose := A._verbose, op := A.op,
        total := A.total + B.total, failures := A.failures + B.failures,
        value := some v, regex_pattern := none } C v n rfl hCv hopC hops
      (ValueConstraint.namePropV_some _ n rfl) hnC
    have hNR := ValueConstraint.merge_lit A
      { _name := some n, _verbose := B._verbose, op := B.op,
        total := B.total + C.total, failures := B.failures + C.failures,
        value := some v, regex_pattern := none } v n hAv rfl hopB hops hnA
      (ValueConstraint.namePropV_some _ n rfl)
    exact ⟨_, _, _, _, _, hMAB, rfl, rfl, hMBA, Nat.add_comm _ _,
      Nat.add_comm _ _, hMBC, hNL, hNR, Nat.add_assoc _ _ _,
      Nat.add_assoc _ _ _⟩
  · have hSAB := SummaryConstraint.merge_wf SA SB m hwfA hb1 hb2 hb3 hb4
      hb5 hb6 hb7 hmA hmB
    have hSBA := SummaryConstraint.merge_wf SB SA m hwfB hb1.symm hb2.symm
      hb3.symm hb4.symm hb5.symm hb6.symm hb7.symm hmB hmA
    have hSBC := SummaryConstraint.merge_wf SB SC m hwfB
      (hc1.trans hb1.symm) (hc2.trans hb2.symm) (hc3.trans hb3.symm)
      (hc4.trans hb4.symm) (hc5.trans hb5.symm) (hc6.trans hb6.symm)
      (hc7.trans hb7.symm) hmB hmC
    have hwfAB : SummaryConstraint.shapeWF
        ⟨SA._verbose, some m, SA.op, SA.first_field, SA.second_field,
          SA.third_field, SA.total + SB.total, SA.failures + SB.failures,
          SA.value, SA.upper_value, SA.reference_set, SA.ref_string_set,
          SA.ref_numbers_set, SA.reference_theta_sketch,
          SA.string_theta_sketch, SA.numbers_theta_sketch⟩ :=
      SummaryConstraint.shapeWF_update SA (some m) _ _ hwfA
    have hwfBC : SummaryConstraint.shapeWF
        ⟨SB._verbose, some m, SB.op, SB.first_field, SB.second_field,
          SB.third_field, SB.total + SC.total, SB.failures + SC.failures,
          SB.value, SB.upper_value, SB.reference_set, SB.ref_string_set,
          SB.ref_numbers_set, SB.reference_theta_sketch,
          SB.string_theta_sketch, SB.numbers_theta_sketch⟩ :=
      SummaryConstraint.shapeWF_update SB (some m) _ _ hwfB
    have hTL := SummaryConstraint.merge_wf
      ⟨SA._verbose, some m, SA.op, SA.first_field, SA.second_field,
        SA.third_field, SA.total + SB.total, SA.failures + SB.failures,
        SA.value, SA.upper_value, SA.reference_set, SA.ref_string_set,
        SA.ref_numbers_set, SA.reference_theta_sketch,
        SA.string_theta_sketch, SA.numbers_theta_sketch⟩ SC m hwfAB
      hc1 hc2 hc3 hc4 hc5 hc6 hc7
      (SummaryConstraint.namePropS_some _ m rfl
        (SummaryConstraint.shapeWF_ref_present _ hwfAB)) hmC
    have hTR := SummaryConstraint.merge_wf SA
      ⟨SB._verbose, some m, SB.op, SB.first_field, SB.second_field,
        SB.third_field, SB.total + SC.total, SB.failures + SC.failures,
        SB.value, SB.upper_value, SB.reference_set, SB.ref_string_set,
        SB.ref_numbers_set, SB.reference_theta_sketch,
        SB.string_theta_sketch, SB.numbers_theta_sketch⟩ m hwfA
      hb1 hb2 hb3 hb4 hb5 hb6 hb7 hmA
      (SummaryConstraint.namePropS_some _ m rfl
        (SummaryConstraint.shapeWF_ref_present _ hwfBC))
    exact ⟨_, _, _, _, _, hSAB, rfl, rfl, hSBA, Nat.add_comm _ _,
      Nat.add_comm _ _, hSBC, hTL, hTR, Nat.add_assoc _ _ _,
      Nat.add_assoc _ _ _⟩

/-- C1 witness: merging same-identity copies of the literal constraint
`value EQ 3` (counters `(1,1)`, `(2,0)`, `(5,4)`) and of the summary
constraint `min GE 0` (counters `(3,1)`, `(4,2)`, `(10,0)`) sums the
counters commutatively and associatively. -/
theorem C1_witness :
    (∃ MAB MBA MBC NL NR : ValueConstraint,
      vcEq3a.merge (some vcEq3b) = .ok MAB
      ∧ MAB.total = vcEq3a.total + vcEq3b.total
      ∧ MAB.failures = vcEq3a.failures + vcEq3b.failures
      ∧ vcEq3b.merge (some vcEq3a) = .ok MBA
      ∧ MBA.total = MAB.total ∧ MBA.failures = MAB.failures
      ∧ vcEq3b.merge (some vcEq3c) = .ok MBC
      ∧ MAB.merge (some vcEq3c) = .ok NL
      ∧ vcEq3a.merge (some MBC) = .ok NR
      ∧ NL.total = NR.total ∧ NL.failures = NR.failures)
    ∧ (∃ SAB SBA SBC TL TR : SummaryConstraint,
      scMinGE0a.merge (some scMinGE0b) = .ok SAB
      ∧ SAB.total = scMinGE0a.total + scMinGE0b.total
      ∧ SAB.failures = scMinGE0a.failures + scMinGE0b.failures
      ∧ scMinGE0b.merge (some scMinGE0a) = .ok SBA
      ∧ SBA.total = SAB.total ∧ SBA.failures = SAB.failures
      ∧ scMinGE0b.merge (some scMinGE0c) = .ok SBC
      ∧ SAB.merge (some scMinGE0c) = .ok TL
      ∧ scMinGE0a.merge (some SBC) = .ok TR
      ∧ TL.total = TR.total ∧ TL.failures = TR.failures) :=
  C1_merge_sums_counters_commutative_associative vcEq3a vcEq3b vcEq3c
    (.num 3) "eq3" scMinGE0a scMinGE0b scMinGE0c "summary min GE 0/None"
    rfl rfl rfl rfl rfl (by decide) (by decide) (by decide) (by decide)
    (Or.inr (Or.inr (Or.inr ⟨by decide, by decide,
      ⟨rfl, rfl, rfl, rfl, rfl, rfl⟩, rfl, rfl, Or.inl ⟨rfl, rfl⟩⟩)))
    (Or.inr (Or.inr (Or.inr ⟨by decide, by decide,
      ⟨rfl, rfl, rfl, rfl, rfl, rfl⟩, rfl, rfl, Or.inl ⟨rfl, rfl⟩⟩)))
    (Or.inr (Or.inr (Or.inr ⟨by decide, by decide,
      ⟨rfl, rfl, rfl, rfl, rfl, rfl⟩, rfl, rfl, Or.inl ⟨rfl, rfl⟩⟩)))
    ⟨rfl, rfl, rfl, rfl, rfl, rfl, rfl⟩
    ⟨rfl, rfl, rfl, rfl, rfl, rfl, rfl⟩
    (by decide) (by decide) (by decide)
